import Mathlib

/-!
Shallow embedding of the loan-arbitrage bot engine (`bot_service.py`,
`config.py`) of the repository `loan-arbitrage-bot-replit`.

Conventions of the embedding:
* Python floats are modelled by `ℚ` (exact real-number semantics of the
  source's arithmetic; decimal literals such as `0.85` denote the exact
  rational).
* Python dictionaries with optional keys are modelled by structures whose
  fields are `Option`-valued exactly when some producer in the repository
  omits the key; fields that every producer sets (and that the code also
  reads by direct indexing) are plain.
* Wall-clock timestamps are passed in as explicit parameters; the
  background thread itself is not modelled, only the state transitions
  the lifecycle methods perform.
-/

namespace BotService

/-- A raw upstream position record as consumed by `_process_positions`
(`bot_service.py` lines 239-287).  Every field the function reads with
`.get` is `Option`-valued; values are already numeric (the `ValueError`
skip path concerns non-numeric upstream strings, outside this model). -/
structure RawPosition where
  loanCoin : Option String := none
  asset : Option String := none
  collateralCoin : Option String := none
  totalDebt : Option ℚ := none
  totalAmount : Option ℚ := none
  collateralAmount : Option ℚ := none
  currentLTV : Option ℚ := none
  loanId : Option String := none
  hourlyInterestRate : Option ℚ := none
deriving Repr, DecidableEq

/-- A processed/stored position dictionary.  Plain fields are present in
every position record the repository constructs (the two demo lists,
`_process_positions` output); `Option` fields model keys that some
producers omit (`hourly_interest` and `loan_amount` are set only by
`_setup_demo_mode`, `hourly_rate` only by `_update_positions` demo data
and `_process_positions`, and so on). -/
structure Position where
  loan_id : String
  loan_coin : String
  collateral_coin : String
  total_debt : ℚ
  collateral_amount : ℚ
  ltv_percentage : ℚ
  risk_level : String
  current_ltv : Option ℚ := none
  margin_call_buffer : Option ℚ := none
  liquidation_buffer : Option ℚ := none
  hourly_rate : Option ℚ := none
  hourly_interest : Option ℚ := none
  loan_amount : Option ℚ := none
  interest_rate : Option ℚ := none
  status : Option String := none
deriving Repr, DecidableEq

/-- Risk-level rule of `_process_positions` (`bot_service.py` lines
256-264): an if/elif chain on the margin-call buffer. -/
def classifyRisk (margin_call_buffer : ℚ) : String :=
  if margin_call_buffer < 3 then "CRITICAL"
  else if margin_call_buffer < 8 then "HIGH"
  else if margin_call_buffer < 15 then "MEDIUM"
  else "LOW"

/-- Body of the `for pos in raw_positions` loop of `_process_positions`
(`bot_service.py` lines 243-281), for one raw record.  `margin_call_ltv`
and `liquidation_ltv` come from the configuration (`config.py`). -/
def process_position (margin_call_ltv liquidation_ltv : ℚ)
    (pos : RawPosition) : Position :=
  let loan_coin := pos.loanCoin.getD (pos.asset.getD "")
  let collateral_coin := pos.collateralCoin.getD (pos.asset.getD "")
  let total_debt := pos.totalDebt.getD (pos.totalAmount.getD 0)
  let collateral_amount := pos.collateralAmount.getD 0
  let current_ltv := pos.currentLTV.getD 0
  let ltv_percentage := if current_ltv < 1 then current_ltv * 100 else current_ltv
  let margin_call_buffer := margin_call_ltv * 100 - ltv_percentage
  let liquidation_buffer := liquidation_ltv * 100 - ltv_percentage
  { loan_id := pos.loanId.getD (loan_coin ++ "_" ++ collateral_coin)
    loan_coin := loan_coin
    collateral_coin := collateral_coin
    total_debt := total_debt
    collateral_amount := collateral_amount
    current_ltv := some current_ltv
    ltv_percentage := ltv_percentage
    margin_call_buffer := some margin_call_buffer
    liquidation_buffer := some liquidation_buffer
    risk_level := classifyRisk margin_call_buffer
    hourly_rate := some (pos.hourlyInterestRate.getD 0) }

/-- `_process_positions` over a whole list of raw records. -/
def process_positions (margin_call_ltv liquidation_ltv : ℚ)
    (raw_positions : List RawPosition) : List Position :=
  raw_positions.map (process_position margin_call_ltv liquidation_ltv)

/-- The effective hourly rate used by `_analyze_arbitrage_opportunities`
(`bot_service.py` lines 360-361): `pos.get('hourly_interest',
pos.get('hourly_rate', 0))`. -/
def rateOf (pos : Position) : ℚ :=
  pos.hourly_interest.getD (pos.hourly_rate.getD 0)

/-- An arbitrage opportunity record (`bot_service.py` lines 364-374). -/
structure Opportunity where
  type : String
  from_loan_id : String
  to_loan_id : String
  from_coin : String
  to_coin : String
  rate_spread : ℚ
  transfer_amount : ℚ
  expected_profit : ℚ
  confidence : String
deriving Repr, DecidableEq

/-- Inner-loop step of `_analyze_arbitrage_opportunities` for one ordered
pair `(pos1, pos2)` with `pos2` after `pos1` in the store (`bot_service.py`
lines 360-374): emit an opportunity iff the absolute rate spread exceeds
`0.1`. -/
def pairOpp (pos1 pos2 : Position) : Option Opportunity :=
  let rate1 := rateOf pos1
  let rate2 := rateOf pos2
  let rate_diff := rate2 - rate1
  if |rate_diff| > 0.1 then
    some { type := "RATE_ARBITRAGE"
           from_loan_id := pos1.loan_id
           to_loan_id := pos2.loan_id
           from_coin := pos1.loan_coin
           to_coin := pos2.loan_coin
           rate_spread := rate_diff
           transfer_amount := min (pos1.loan_amount.getD 0) pos2.collateral_amount
           expected_profit := rate_diff * min (pos1.loan_amount.getD 0) pos2.collateral_amount * 24
           confidence := if |rate_diff| > 0.5 then "HIGH" else "MEDIUM" }
  else none

/-- The double loop of `_analyze_arbitrage_opportunities` (`bot_service.py`
lines 358-374): outer loop over positions in store order, inner loop over
the subsequent positions, appending matches in order. -/
def analyzeFrom : List Position → List Opportunity
  | [] => []
  | pos1 :: rest => rest.filterMap (pairOpp pos1) ++ analyzeFrom rest

/-- Top-level `_analyze_arbitrage_opportunities` (`bot_service.py` lines
350-376): with fewer than two positions return the empty list, otherwise
run the double loop. -/
def analyze_arbitrage_opportunities (positions : List Position) : List Opportunity :=
  if positions.length < 2 then [] else analyzeFrom positions

/-- A loan-product record as stored in `available_loans`.  Plain fields
are set by every producer; `Option` fields model keys only some demo or
live producers set. -/
structure Loan where
  asset : String
  min_amount : ℚ
  max_amount : ℚ
  hourly_rate : ℚ
  annual_rate : Option ℚ := none
  available_amount : Option ℚ := none
  status : Option String := none
deriving Repr, DecidableEq

/-- A trade-history record.  The manual-arbitrage path (`bot_service.py`
lines 463-473) sets `from_loan_id`/`to_loan_id`/`profit`/`fees`; the demo
history entry (`bot_service.py` lines 562-573) instead sets
`from_loan`/`to_loan`/`profit`, hence the `Option` fields. -/
structure Trade where
  id : String
  type : String
  amount : ℚ
  status : String
  from_loan_id : Option String := none
  to_loan_id : Option String := none
  from_loan : Option String := none
  to_loan : Option String := none
  profit : Option ℚ := none
  fees : Option ℚ := none
deriving Repr, DecidableEq

/-- The `self.stats` dictionary (`bot_service.py` lines 32-40).
`start_time` is an abstract timestamp. -/
structure Stats where
  total_profit : ℚ := 0
  total_trades : Nat := 0
  successful_trades : Nat := 0
  failed_trades : Nat := 0
  average_profit_per_trade : ℚ := 0
  start_time : Option Nat := none
  uptime : ℚ := 0
deriving Repr, DecidableEq

/-- The mutable engine state of a `BotService` instance (`bot_service.py`
lines 15-40).  `client` models whether `self.client` is non-`None`; the
worker-thread handle and `last_update` timestamp are not modelled.  The
defaults are the `__init__` values with the configuration defaults of
`config.py` (`DEFAULT_MAX_LTV=0.75`, `DEFAULT_MIN_LTV=0.50`,
`DEFAULT_TARGET_LTV=0.65`). -/
structure BotState where
  client : Bool := false
  running : Bool := false
  positions : List Position := []
  available_loans : List Loan := []
  trade_history : List Trade := []
  error_message : Option String := none
  max_ltv : ℚ := 0.75
  min_ltv : ℚ := 0.50
  target_ltv : ℚ := 0.65
  auto_rebalance : Bool := false
  stats : Stats := {}
deriving Repr, DecidableEq

/-- The freshly-initialized engine state. -/
def initial_state : BotState := {}

/-- The synthetic positions installed by `_setup_demo_mode`
(`bot_service.py` lines 515-542). -/
def demoPositions : List Position :=
  [ { loan_id := "demo_loan_1"
      collateral_coin := "BTC"
      collateral_amount := 0.5
      loan_coin := "USDT"
      loan_amount := some 15000
      total_debt := 15000
      ltv_percentage := 68.5
      interest_rate := some 0.0001
      hourly_interest := some 1.5
      risk_level := "MEDIUM"
      status := some "ACTIVE" },
    { loan_id := "demo_loan_2"
      collateral_coin := "ETH"
      collateral_amount := 8.0
      loan_coin := "USDT"
      loan_amount := some 12000
      total_debt := 12000
      ltv_percentage := 72.3
      interest_rate := some 0.00008
      hourly_interest := some 0.96
      risk_level := "HIGH"
      status := some "ACTIVE" } ]

/-- The synthetic loan products installed by `_setup_demo_mode`
(`bot_service.py` lines 544-559). -/
def demoLoans : List Loan :=
  [ { asset := "USDT", hourly_rate := 0.0001, available_amount := some 50000
      min_amount := 100, max_amount := 100000 },
    { asset := "BUSD", hourly_rate := 0.00009, available_amount := some 30000
      min_amount := 100, max_amount := 50000 } ]

/-- The sample trade history installed by `_setup_demo_mode`
(`bot_service.py` lines 562-573). -/
def demoTrades : List Trade :=
  [ { id := "demo_trade_1", type := "arbitrage"
      from_loan := some "demo_loan_1", to_loan := some "demo_loan_2"
      amount := 1000, profit := some 15.50, status := "COMPLETED" } ]

/-- The `_setup_demo_mode` method (`bot_service.py` lines 510-580): clear
the client handle, install the synthetic positions, loan products and
trade history, and overwrite the trade counters. -/
def setup_demo_mode (s : BotState) : BotState :=
  { s with client := false
           positions := demoPositions
           available_loans := demoLoans
           trade_history := demoTrades
           stats := { s.stats with total_trades := 1
                                   successful_trades := 1
                                   total_profit := 15.50 } }

/-- Character-list test that `needle` is an initial segment of the second
list (helper for the substring test below). -/
def startsWithChars : List Char → List Char → Bool
  | [], _ => true
  | _ :: _, [] => false
  | c :: cs, h :: hs => c == h && startsWithChars cs hs

/-- Character-list test that `needle` occurs contiguously somewhere in the
second list. -/
def occursInChars (needle : List Char) : List Char → Bool
  | [] => needle.isEmpty
  | h :: hs => startsWithChars needle (h :: hs) || occursInChars needle hs

/-- Lower-case a string character by character, modelling Python's
`str.lower()` on the ASCII messages involved. -/
def strToLower (s : String) : String := ⟨s.data.map Char.toLower⟩

/-- Substring test, modelling Python's `sub in s`. -/
def containsStr (s sub : String) : Bool := occursInChars sub.toList s.toList

/-- Test performed by `initialize_client` on an exception's message
(`bot_service.py` lines 69 and 92): `"restricted location" in str(e).lower()`. -/
def isRestrictedLocationMsg (message : String) : Bool :=
  containsStr (strToLower message) "restricted location"

/-- Outcome of the remote-session attempt inside the `try` block of
`initialize_client` (client construction, identity check, possible
testnet retry): it either completes, raises a `BinanceAPIException`
carrying a message, or raises a generic exception. -/
inductive ConnectOutcome where
  | success
  | binanceError (message : String)
  | otherError (message : String)
deriving Repr, DecidableEq

/-- The `initialize_client` method (`bot_service.py` lines 51-105),
parameterized by the outcome of the remote calls.  The `Client(...)`
construction at line 55 is pure object construction and assigns
`self.client` before any remote call can raise; `config.update_credentials`
touches only the external configuration object and is not modelled. -/
def initialize_client (s : BotState) (outcome : ConnectOutcome) : Bool × BotState :=
  let s1 : BotState := { s with client := true }
  match outcome with
  | .success => (true, { s1 with error_message := none })
  | .binanceError message =>
    if isRestrictedLocationMsg message then
      (true, setup_demo_mode
        { s1 with error_message := some "Geographic restriction detected. Running in demo mode." })
    else
      (false, { s1 with error_message := some ("Binance API Error: " ++ message) })
  | .otherError message =>
    (false, { s1 with error_message := some ("Connection Error: " ++ message) })

/-- Tail of `start_bot` once the guards have passed (`bot_service.py`
lines 122-133): apply the configuration overrides, set the running flag,
record the start time (the worker thread itself is not modelled). -/
def startRun (s : BotState) (now : Nat) (max_ltv min_ltv : Option ℚ)
    (auto_rebalance : Bool) : BotState :=
  let s1 := match max_ltv with | some m => { s with max_ltv := m } | none => s
  let s2 := match min_ltv with | some m => { s1 with min_ltv := m } | none => s1
  { s2 with auto_rebalance := auto_rebalance
            running := true
            stats := { s2.stats with start_time := some now } }

/-- The `start_bot` method (`bot_service.py` lines 107-136).  `api_key`
and `api_secret` are `some` when credentials are supplied (Python's
truthiness test on the two optional arguments); `outcome` is the result
of the remote-session attempt should `initialize_client` be invoked. -/
def start_bot (s : BotState) (now : Nat) (api_key api_secret : Option String)
    (outcome : ConnectOutcome) (max_ltv min_ltv : Option ℚ)
    (auto_rebalance : Bool) : Bool × BotState :=
  if s.running then (false, s)
  else
    match api_key, api_secret with
    | some _, some _ =>
      let r := initialize_client s outcome
      if r.1 = false then (false, r.2)
      else (true, startRun r.2 now max_ltv min_ltv auto_rebalance)
    | _, _ =>
      if s.client = false then
        (false, { s with error_message := some "No API credentials configured" })
      else
        (true, startRun s now max_ltv min_ltv auto_rebalance)

/-- The `stop_bot` method (`bot_service.py` lines 138-148): refuse when
not running, otherwise clear the running flag (the bounded thread join is
not modelled). -/
def stop_bot (s : BotState) : Bool × BotState :=
  if s.running = false then (false, s)
  else (true, { s with running := false })

/-- Response payload of `execute_manual_arbitrage` (`bot_service.py`
lines 480-485). -/
structure ArbitrageResult where
  success : Bool
  trade_id : String
  message : String
  details : Trade
deriving Repr, DecidableEq

/-- The `execute_manual_arbitrage` method (`bot_service.py` lines
459-485): build a simulated trade with a `0.001` fee rate, append it to
the trade history, bump the counters.  `ts` models `int(time.time())`;
`expected_profit` models the `kwargs.get('expected_profit', 0)` lookup. -/
def execute_manual_arbitrage (s : BotState) (ts : Nat)
    (from_loan_id to_loan_id : String) (transfer_amount : ℚ)
    (expected_profit : Option ℚ) : ArbitrageResult × BotState :=
  let trade : Trade :=
    { id := "trade_" ++ toString ts
      type := "MANUAL_ARBITRAGE"
      from_loan_id := some from_loan_id
      to_loan_id := some to_loan_id
      amount := transfer_amount
      status := "SIMULATED"
      profit := some (expected_profit.getD 0)
      fees := some (transfer_amount * 0.001) }
  let s1 :=
    { s with trade_history := s.trade_history ++ [trade]
             stats := { s.stats with
                          total_trades := s.stats.total_trades + 1
                          successful_trades := s.stats.successful_trades + 1
                          total_profit := s.stats.total_profit + expected_profit.getD 0 } }
  ({ success := true
     trade_id := trade.id
     message := "Manual arbitrage executed successfully (simulated)"
     details := trade }, s1)

/-- The rebalance record built by `execute_manual_rebalance`
(`bot_service.py` lines 490-497). -/
structure Rebalance where
  id : String
  loan_id : String
  action : String
  amount : ℚ
  status : String
deriving Repr, DecidableEq

/-- Response payload of `execute_manual_rebalance` (`bot_service.py`
lines 499-504). -/
structure RebalanceResult where
  success : Bool
  rebalance_id : String
  details : Rebalance
deriving Repr, DecidableEq

/-- The `execute_manual_rebalance` method (`bot_service.py` lines
487-504): build a simulated rebalance record and return it.  Note the
source never appends this record to `self.trade_history` and never
touches `self.stats`; the engine state is returned unchanged. -/
def execute_manual_rebalance (s : BotState) (ts : Nat)
    (loan_id action : String) (amount : ℚ) : RebalanceResult × BotState :=
  let rebalance : Rebalance :=
    { id := "rebalance_" ++ toString ts
      loan_id := loan_id
      action := action
      amount := amount
      status := "SIMULATED" }
  ({ success := true
     rebalance_id := rebalance.id
     details := rebalance }, s)

/-- An LTV rebalance recommendation (`bot_service.py` lines 425-439). -/
structure Recommendation where
  loan_id : String
  action : String
  amount : ℚ
  reason : String
  priority : String
deriving Repr, DecidableEq

/-- Loop body of the recommendation generation in `get_strategy_analysis`
(`bot_service.py` lines 423-439): an if/elif chain per position. -/
def recommendFor (max_ltv min_ltv : ℚ) (pos : Position) : Option Recommendation :=
  if pos.ltv_percentage > max_ltv * 100 then
    some { loan_id := pos.loan_id
           action := "REDUCE"
           amount := pos.total_debt * 0.1
           reason := "LTV too high"
           priority := pos.risk_level }
  else if pos.ltv_percentage < min_ltv * 100 then
    some { loan_id := pos.loan_id
           action := "INCREASE"
           amount := pos.collateral_amount * 0.1
           reason := "Can leverage more"
           priority := "LOW" }
  else none

/-- The full recommendation list of `get_strategy_analysis`: one pass over
the positions in store order, appending at most one recommendation each. -/
def rebalance_recommendations (max_ltv min_ltv : ℚ)
    (positions : List Position) : List Recommendation :=
  positions.filterMap (recommendFor max_ltv min_ltv)

/-- Flattened payload of `get_strategy_analysis` (`bot_service.py` lines
417-453). -/
structure StrategyAnalysis where
  opportunities : List Opportunity
  total_opportunities : Nat
  estimated_profit : ℚ
  average_ltv : ℚ
  positions_at_risk : Nat
  recommendations : List Recommendation
  performance : Stats
deriving Repr, DecidableEq

/-- The `get_strategy_analysis` method (`bot_service.py` lines 417-453). -/
def get_strategy_analysis (s : BotState) : StrategyAnalysis :=
  let opportunities := analyze_arbitrage_opportunities s.positions
  { opportunities := opportunities
    total_opportunities := opportunities.length
    estimated_profit := (opportunities.map Opportunity.expected_profit).sum
    average_ltv :=
      if s.positions.isEmpty then 0
      else (s.positions.map Position.ltv_percentage).sum / (s.positions.length : ℚ)
    positions_at_risk :=
      (s.positions.filter
        (fun pos => pos.risk_level == "HIGH" || pos.risk_level == "CRITICAL")).length
    recommendations := rebalance_recommendations s.max_ltv s.min_ltv s.positions
    performance := s.stats }

/-! ## Helper lemmas -/

lemma classifyRisk_critical {b : ℚ} (h : b < 3) : classifyRisk b = "CRITICAL" := by
  simp [classifyRisk, h]

lemma classifyRisk_high {b : ℚ} (h1 : 3 ≤ b) (h2 : b < 8) : classifyRisk b = "HIGH" := by
  unfold classifyRisk
  rw [if_neg (not_lt.mpr h1), if_pos h2]

lemma classifyRisk_medium {b : ℚ} (h1 : 8 ≤ b) (h2 : b < 15) :
    classifyRisk b = "MEDIUM" := by
  unfold classifyRisk
  rw [if_neg (not_lt.mpr (le_trans (by norm_num) h1)), if_neg (not_lt.mpr h1), if_pos h2]

lemma classifyRisk_low {b : ℚ} (h1 : 15 ≤ b) : classifyRisk b = "LOW" := by
  unfold classifyRisk
  rw [if_neg (not_lt.mpr (le_trans (by norm_num) h1)),
    if_neg (not_lt.mpr (le_trans (by norm_num) h1)), if_neg (not_lt.mpr h1)]

lemma pairOpp_eq_none {pos1 pos2 : Position}
    (h : |rateOf pos2 - rateOf pos1| ≤ 0.1) : pairOpp pos1 pos2 = none := by
  simp only [pairOpp]
  rw [if_neg (not_lt.mpr h)]

lemma analyzeFrom_eq_nil {l : List Position}
    (h : ∀ p ∈ l, ∀ q ∈ l, pairOpp p q = none) : analyzeFrom l = [] := by
  induction l with
  | nil => rfl
  | cons a t ih =>
    simp only [analyzeFrom, List.append_eq_nil]
    refine ⟨List.filterMap_eq_nil_iff.mpr fun x hx => h a (by simp) x (by simp [hx]), ?_⟩
    exact ih fun p hp q hq => h p (by simp [hp]) q (by simp [hq])

/-! ## Claim theorems -/

/-- C1: for every upstream position record with numeric fields, the risk
classification computes `marginCallBuffer = marginCallLTV*100 -
ltvPercentage` and `liquidationBuffer = liquidationLTV*100 -
ltvPercentage`, and assigns exactly one risk level by the rule `buffer < 3
→ CRITICAL`, `3 ≤ buffer < 8 → HIGH`, `8 ≤ buffer < 15 → MEDIUM`,
`buffer ≥ 15 → LOW`. -/
theorem c1_risk_classification (mc lq : ℚ) (pos : RawPosition) :
    (process_position mc lq pos).margin_call_buffer
        = some (mc * 100 - (process_position mc lq pos).ltv_percentage)
    ∧ (process_position mc lq pos).liquidation_buffer
        = some (lq * 100 - (process_position mc lq pos).ltv_percentage)
    ∧ (mc * 100 - (process_position mc lq pos).ltv_percentage < 3 →
        (process_position mc lq pos).risk_level = "CRITICAL")
    ∧ (3 ≤ mc * 100 - (process_position mc lq pos).ltv_percentage ∧
          mc * 100 - (process_position mc lq pos).ltv_percentage < 8 →
        (process_position mc lq pos).risk_level = "HIGH")
    ∧ (8 ≤ mc * 100 - (process_position mc lq pos).ltv_percentage ∧
          mc * 100 - (process_position mc lq pos).ltv_percentage < 15 →
        (process_position mc lq pos).risk_level = "MEDIUM")
    ∧ (15 ≤ mc * 100 - (process_position mc lq pos).ltv_percentage →
        (process_position mc lq pos).risk_level = "LOW") := by
  refine ⟨rfl, rfl, fun h => classifyRisk_critical h,
    fun h => classifyRisk_high h.1 h.2,
    fun h => classifyRisk_medium h.1 h.2,
    fun h => classifyRisk_low h⟩

/-- Scenario input of C1: thresholds `marginCallLTV=0.85`, upstream
`currentLTV=0.83`, so the normalized `ltvPercentage` is 83. -/
def rawScenarioC1 : RawPosition :=
  { loanCoin := some "USDT", collateralCoin := some "BTC", currentLTV := some 0.83 }

/-- Witness for C1: with `marginCallLTV = 0.85` and `ltvPercentage = 83`
the margin-call buffer is 2 and the risk level is CRITICAL. -/
theorem c1_risk_classification_witness :
    0.85 * 100 - (process_position 0.85 0.91 rawScenarioC1).ltv_percentage = 2
    ∧ 0.85 * 100 - (process_position 0.85 0.91 rawScenarioC1).ltv_percentage < 3
    ∧ (process_position 0.85 0.91 rawScenarioC1).risk_level = "CRITICAL" := by
  have hltv : (process_position 0.85 0.91 rawScenarioC1).ltv_percentage = 83 := by
    norm_num [process_position, rawScenarioC1]
  refine ⟨by rw [hltv]; norm_num, by rw [hltv]; norm_num, ?_⟩
  exact (c1_risk_classification 0.85 0.91 rawScenarioC1).2.2.1 (by rw [hltv]; norm_num)

/-- C2: for every position list of size 0 or 1 the opportunity analyzer
returns an empty list, and for every pair of distinct positions with
`|rateSpread| ≤ 0.1` no Opportunity is emitted for that pair (stated for
the pair step, for the two-element store, and for any store all of whose
pairs are below the threshold). -/
theorem c2_small_store_or_narrow_spread :
    (∀ positions : List Position, positions.length < 2 →
        analyze_arbitrage_opportunities positions = [])
    ∧ (∀ pos1 pos2 : Position, |rateOf pos2 - rateOf pos1| ≤ 0.1 →
        pairOpp pos1 pos2 = none)
    ∧ (∀ pos1 pos2 : Position, |rateOf pos2 - rateOf pos1| ≤ 0.1 →
        analyze_arbitrage_opportunities [pos1, pos2] = [])
    ∧ (∀ positions : List Position,
        (∀ p ∈ positions, ∀ q ∈ positions, |rateOf q - rateOf p| ≤ 0.1) →
        analyze_arbitrage_opportunities positions = []) := by
  refine ⟨?_, ?_, ?_, ?_⟩
  · intro l h
    unfold analyze_arbitrage_opportunities
    rw [if_pos h]
  · intro pos1 pos2 h
    exact pairOpp_eq_none h
  · intro pos1 pos2 h
    have hn := pairOpp_eq_none h
    simp [analyze_arbitrage_opportunities, analyzeFrom, hn]
  · intro l h
    by_cases hl : l.length < 2
    · unfold analyze_arbitrage_opportunities
      rw [if_pos hl]
    · unfold analyze_arbitrage_opportunities
      rw [if_neg hl]
      exact analyzeFrom_eq_nil fun p hp q hq => pairOpp_eq_none (h p hp q hq)

/-- Scenario position with effective hourly rate 0.2. -/
def posA : Position :=
  { loan_id := "a", loan_coin := "USDT", collateral_coin := "BTC"
    total_debt := 100, collateral_amount := 1, ltv_percentage := 50
    risk_level := "LOW", hourly_rate := some 0.2 }

/-- Scenario position with effective hourly rate 0.15. -/
def posB : Position :=
  { loan_id := "b", loan_coin := "USDC", collateral_coin := "ETH"
    total_debt := 200, collateral_amount := 2, ltv_percentage := 55
    risk_level := "LOW", hourly_rate := some 0.15 }

/-- Witness for C2: a one-element store yields no opportunities, and the
spec scenario (rates 0.2 and 0.15, spread -0.05) emits nothing. -/
theorem c2_small_store_or_narrow_spread_witness :
    ([posA] : List Position).length < 2
    ∧ analyze_arbitrage_opportunities [posA] = []
    ∧ |rateOf posB - rateOf posA| ≤ 0.1
    ∧ pairOpp posA posB = none
    ∧ analyze_arbitrage_opportunities [posA, posB] = [] := by
  have habs : |rateOf posB - rateOf posA| ≤ 0.1 := by
    rw [show rateOf posB - rateOf posA = -0.05 from by norm_num [rateOf, posA, posB]]
    rw [abs_of_nonpos (by norm_num)]
    norm_num
  refine ⟨by norm_num, c2_small_store_or_narrow_spread.1 [posA] (by norm_num), habs,
    c2_small_store_or_narrow_spread.2.1 posA posB habs,
    c2_small_store_or_narrow_spread.2.2.1 posA posB habs⟩

/-- C3: for every pair of distinct positions with `|rateSpread| > 0.1`
(rates resolved as hourly-interest, else hourly-rate, else 0) the analyzer
emits exactly one Opportunity for the pair, with `rateSpread = rate(pos2)
- rate(pos1)`, `transferAmount = min(loanAmount(pos1),
collateralAmount(pos2))`, `expectedProfit = rateSpread * transferAmount *
24`, and confidence HIGH iff `|rateSpread| > 0.5`, else MEDIUM. -/
theorem c3_opportunity_fields (pos1 pos2 : Position)
    (h : |rateOf pos2 - rateOf pos1| > 0.1) :
    pairOpp pos1 pos2 = some
      { type := "RATE_ARBITRAGE"
        from_loan_id := pos1.loan_id
        to_loan_id := pos2.loan_id
        from_coin := pos1.loan_coin
        to_coin := pos2.loan_coin
        rate_spread := rateOf pos2 - rateOf pos1
        transfer_amount := min (pos1.loan_amount.getD 0) pos2.collateral_amount
        expected_profit := (rateOf pos2 - rateOf pos1)
            * min (pos1.loan_amount.getD 0) pos2.collateral_amount * 24
        confidence := if |rateOf pos2 - rateOf pos1| > 0.5 then "HIGH" else "MEDIUM" }
    ∧ (∀ opp : Opportunity, pairOpp pos1 pos2 = some opp →
        analyze_arbitrage_opportunities [pos1, pos2] = [opp])
    ∧ (analyze_arbitrage_opportunities [pos1, pos2]).length = 1
    ∧ (∀ p : Position, ∀ r : ℚ, p.hourly_interest = some r → rateOf p = r)
    ∧ (∀ p : Position, p.hourly_interest = none → ∀ r : ℚ,
        p.hourly_rate = some r → rateOf p = r)
    ∧ (∀ p : Position, p.hourly_interest = none → p.hourly_rate = none →
        rateOf p = 0) := by
  have hpair : pairOpp pos1 pos2 = some
      { type := "RATE_ARBITRAGE"
        from_loan_id := pos1.loan_id
        to_loan_id := pos2.loan_id
        from_coin := pos1.loan_coin
        to_coin := pos2.loan_coin
        rate_spread := rateOf pos2 - rateOf pos1
        transfer_amount := min (pos1.loan_amount.getD 0) pos2.collateral_amount
        expected_profit := (rateOf pos2 - rateOf pos1)
            * min (pos1.loan_amount.getD 0) pos2.collateral_amount * 24
        confidence := if |rateOf pos2 - rateOf pos1| > 0.5 then "HIGH" else "MEDIUM" } := by
    simp only [pairOpp]
    rw [if_pos h]
  have hlist : ∀ opp : Opportunity, pairOpp pos1 pos2 = some opp →
      analyze_arbitrage_opportunities [pos1, pos2] = [opp] := by
    intro opp hopp
    simp [analyze_arbitrage_opportunities, analyzeFrom, hopp]
  refine ⟨hpair, hlist, ?_, ?_, ?_, ?_⟩
  · rw [hlist _ hpair]
    rfl
  · intro p r hp
    simp [rateOf, hp]
  · intro p hp r hr
    simp [rateOf, hp, hr]
  · intro p hp hr
    simp [rateOf, hp, hr]

/-- Witness position for C3 whose explicit hourly-interest field (0.1)
takes precedence over its hourly-rate field. -/
def posW1 : Position :=
  { loan_id := "w1", loan_coin := "USDT", collateral_coin := "BTC"
    total_debt := 100, collateral_amount := 1, ltv_percentage := 50
    risk_level := "LOW", hourly_interest := some 0.1, hourly_rate := some 99
    loan_amount := some 40 }

/-- Witness position for C3 falling back to its hourly-rate field (0.4). -/
def posW2 : Position :=
  { loan_id := "w2", loan_coin := "USDC", collateral_coin := "ETH"
    total_debt := 200, collateral_amount := 7, ltv_percentage := 55
    risk_level := "LOW", hourly_rate := some 0.4 }

/-- The opportunity the analyzer emits for `(posW1, posW2)`: spread 0.3,
transfer `min 40 7 = 7`, daily profit `0.3 * 7 * 24 = 50.4`, MEDIUM. -/
def oppW : Opportunity :=
  { type := "RATE_ARBITRAGE", from_loan_id := "w1", to_loan_id := "w2"
    from_coin := "USDT", to_coin := "USDC", rate_spread := 0.3
    transfer_amount := 7, expected_profit := 50.4, confidence := "MEDIUM" }

/-- Witness for C3 at the concrete pair `(posW1, posW2)`. -/
theorem c3_opportunity_fields_witness :
    |rateOf posW2 - rateOf posW1| > 0.1
    ∧ pairOpp posW1 posW2 = some oppW
    ∧ analyze_arbitrage_opportunities [posW1, posW2] = [oppW] := by
  have hrate : rateOf posW2 - rateOf posW1 = 0.3 := by
    norm_num [rateOf, posW1, posW2]
  have h : |rateOf posW2 - rateOf posW1| > 0.1 := by
    rw [hrate, abs_of_nonneg (by norm_num)]
    norm_num
  have hc := c3_opportunity_fields posW1 posW2 h
  have h2 : pairOpp posW1 posW2 = some oppW := by
    rw [hc.1, hrate]
    rw [if_neg (by rw [abs_of_nonneg (by norm_num)]; norm_num)]
    norm_num [posW1, posW2, oppW, Opportunity.mk.injEq]
  exact ⟨h, h2, hc.2.1 oppW h2⟩

/-- C4: every manual-arbitrage call returns a Trade with `fees = amount *
0.001` and status simulated, appends it to the trade history (length
grows by exactly one), and updates Stats by `totalTrades += 1`,
`successfulTrades += 1`, `totalProfit += profit`; with `amount = 1000` the
fees are 1.0. -/
theorem c4_manual_arbitrage (s : BotState) (ts : Nat) (fromId toId : String)
    (amt : ℚ) (ep : Option ℚ) :
    (execute_manual_arbitrage s ts fromId toId amt ep).2.trade_history.length
        = s.trade_history.length + 1
    ∧ (execute_manual_arbitrage s ts fromId toId amt ep).2.trade_history
        = s.trade_history ++ [(execute_manual_arbitrage s ts fromId toId amt ep).1.details]
    ∧ (execute_manual_arbitrage s ts fromId toId amt ep).1.details.fees
        = some (amt * 0.001)
    ∧ (execute_manual_arbitrage s ts fromId toId amt ep).1.details.status = "SIMULATED"
    ∧ (execute_manual_arbitrage s ts fromId toId amt ep).2.stats.total_trades
        = s.stats.total_trades + 1
    ∧ (execute_manual_arbitrage s ts fromId toId amt ep).2.stats.successful_trades
        = s.stats.successful_trades + 1
    ∧ (execute_manual_arbitrage s ts fromId toId amt ep).2.stats.total_profit
        = s.stats.total_profit + ep.getD 0
    ∧ (execute_manual_arbitrage s ts fromId toId 1000 ep).1.details.fees = some 1 := by
  refine ⟨?_, rfl, rfl, rfl, rfl, rfl, rfl, ?_⟩
  · simp [execute_manual_arbitrage]
  · show some ((1000 : ℚ) * 0.001) = some 1
    norm_num

/-- C5 counterexample: a manual-rebalance call on the fresh engine leaves
the trade history at length 0, refuting the claimed length increase by
one. -/
theorem c5_counterexample :
    (execute_manual_rebalance initial_state 0 "demo_loan_1" "increase"
        100).2.trade_history.length = 0
    ∧ ¬ ((execute_manual_rebalance initial_state 0 "demo_loan_1" "increase"
        100).2.trade_history.length = initial_state.trade_history.length + 1) := by
  refine ⟨rfl, ?_⟩
  simp [execute_manual_rebalance, initial_state]

/-- C5 (amended): every manual-rebalance call constructs a simulated
Rebalance record and returns it in the response, but does not append it
to the trade-history log: the engine state, and in particular the
trade-history length, is unchanged. -/
theorem c5_rebalance_returns_without_append (s : BotState) (ts : Nat)
    (loanId act : String) (amount : ℚ) :
    (execute_manual_rebalance s ts loanId act amount).2 = s
    ∧ (execute_manual_rebalance s ts loanId act amount).2.trade_history.length
        = s.trade_history.length
    ∧ (execute_manual_rebalance s ts loanId act amount).1.success = true
    ∧ (execute_manual_rebalance s ts loanId act amount).1.details
        = { id := "rebalance_" ++ toString ts, loan_id := loanId, action := act
            amount := amount, status := "SIMULATED" } :=
  ⟨rfl, rfl, rfl, rfl⟩

/-- C6: `start` while already running returns failure and leaves the
whole engine state unchanged; `stop` while stopped returns failure and
leaves the whole engine state unchanged. -/
theorem c6_lifecycle_guards :
    (∀ (s : BotState) (now : Nat) (apiKey apiSecret : Option String)
        (outcome : ConnectOutcome) (maxLtv minLtv : Option ℚ) (autoReb : Bool),
        s.running = true →
        start_bot s now apiKey apiSecret outcome maxLtv minLtv autoReb = (false, s))
    ∧ (∀ s : BotState, s.running = false → stop_bot s = (false, s)) := by
  constructor
  · intro s now apiKey apiSecret outcome maxLtv minLtv autoReb h
    unfold start_bot
    rw [if_pos h]
  · intro s h
    unfold stop_bot
    rw [if_pos h]

/-- An engine state that is already running. -/
def runningStateW : BotState := { initial_state with running := true }

/-- Witness for C6 at concrete states: a running engine refuses `start`,
a stopped engine refuses `stop`, both unchanged. -/
theorem c6_lifecycle_guards_witness :
    runningStateW.running = true
    ∧ start_bot runningStateW 0 none none ConnectOutcome.success none none false
        = (false, runningStateW)
    ∧ initial_state.running = false
    ∧ stop_bot initial_state = (false, initial_state) :=
  ⟨rfl,
    c6_lifecycle_guards.1 runningStateW 0 none none ConnectOutcome.success none none
      false rfl,
    rfl, c6_lifecycle_guards.2 initial_state rfl⟩

/-- C7: a connection attempt failing with a restricted-location error (and
no secondary endpoint succeeding) reports success and switches the engine
to simulated mode with the synthetic position and loan-product data
populated; a non-restriction failure reports failure and surfaces the
error message. -/
theorem c7_restricted_fallback (s : BotState) (message : String) :
    (isRestrictedLocationMsg message = true →
      initialize_client s (ConnectOutcome.binanceError message)
        = (true, setup_demo_mode
          { s with
            client := true
            error_message :=
              some "Geographic restriction detected. Running in demo mode." })
      ∧ (initialize_client s (ConnectOutcome.binanceError message)).1 = true
      ∧ (initialize_client s (ConnectOutcome.binanceError message)).2.positions
          = demoPositions
      ∧ (initialize_client s (ConnectOutcome.binanceError message)).2.available_loans
          = demoLoans
      ∧ demoPositions.length = 2 ∧ demoLoans.length = 2
      ∧ (initialize_client s (ConnectOutcome.binanceError message)).2.client = false)
    ∧ (isRestrictedLocationMsg message = false →
      initialize_client s (ConnectOutcome.binanceError message)
        = (false,
          { s with
            client := true
            error_message := some ("Binance API Error: " ++ message) }))
    ∧ (∀ msg : String, initialize_client s (ConnectOutcome.otherError msg)
        = (false,
          { s with
            client := true
            error_message := some ("Connection Error: " ++ msg) })) := by
  refine ⟨fun h => ?_, fun h => ?_, fun msg => rfl⟩
  · have heq : initialize_client s (ConnectOutcome.binanceError message)
        = (true, setup_demo_mode
          { s with
            client := true
            error_message :=
              some "Geographic restriction detected. Running in demo mode." }) := by
      simp only [initialize_client]
      rw [if_pos h]
    exact ⟨heq, by rw [heq], by rw [heq]; rfl, by rw [heq]; rfl, rfl, rfl,
      by rw [heq]; rfl⟩
  · simp only [initialize_client]
    rw [if_neg (by rw [h]; simp)]

/-- Witness for C7 at two concrete error messages. -/
theorem c7_restricted_fallback_witness :
    isRestrictedLocationMsg "Service unavailable from a Restricted Location." = true
    ∧ (initialize_client initial_state
        (ConnectOutcome.binanceError
          "Service unavailable from a Restricted Location.")).1 = true
    ∧ (initialize_client initial_state
        (ConnectOutcome.binanceError
          "Service unavailable from a Restricted Location.")).2.positions
        = demoPositions
    ∧ isRestrictedLocationMsg "Invalid API-key" = false
    ∧ initialize_client initial_state (ConnectOutcome.binanceError "Invalid API-key")
        = (false,
          { initial_state with
            client := true
            error_message := some "Binance API Error: Invalid API-key" }) := by
  have h1 : isRestrictedLocationMsg "Service unavailable from a Restricted Location."
      = true := by decide
  have h2 : isRestrictedLocationMsg "Invalid API-key" = false := by decide
  have hc := c7_restricted_fallback initial_state
    "Service unavailable from a Restricted Location."
  have hd := c7_restricted_fallback initial_state "Invalid API-key"
  exact ⟨h1, (hc.1 h1).2.1, (hc.1 h1).2.2.1, h2, hd.2.1 h2⟩

/-- Upstream record whose `currentLTV` is exactly 1, the right endpoint
of the claimed interval. -/
def rawLtvOne : RawPosition := { currentLTV := some 1 }

/-- C8 counterexample: at `currentLTV = 1` (a fraction in the claimed
closed interval `[0, 1]`) the normalizer keeps the value 1 instead of
scaling it to `1 * 100 = 100`. -/
theorem c8_counterexample :
    rawLtvOne.currentLTV = some 1
    ∧ (0 : ℚ) ≤ 1 ∧ (1 : ℚ) ≤ 1
    ∧ (process_position 0.85 0.91 rawLtvOne).ltv_percentage = 1
    ∧ (1 : ℚ) * 100 = 100
    ∧ (process_position 0.85 0.91 rawLtvOne).ltv_percentage ≠ 1 * 100 := by
  have hl : (process_position 0.85 0.91 rawLtvOne).ltv_percentage = 1 := by
    norm_num [process_position, rawLtvOne]
  refine ⟨rfl, by norm_num, by norm_num, hl, by norm_num, ?_⟩
  rw [hl]
  norm_num

/-- C8 (amended): for every upstream record whose `currentLTV` is a
fraction in `[0, 1)` (strictly below 1), the normalized position's
`ltvPercentage` equals `currentLTV * 100`. -/
theorem c8_ltv_normalization (mc lq : ℚ) (pos : RawPosition) (c : ℚ)
    (hc : pos.currentLTV = some c) (hnonneg : 0 ≤ c) (h1 : c < 1) :
    (process_position mc lq pos).ltv_percentage = c * 100 := by
  clear hnonneg
  simp [process_position, hc, h1]

/-- Witness for the amended C8 at `currentLTV = 0.83`. -/
theorem c8_ltv_normalization_witness :
    rawScenarioC1.currentLTV = some 0.83
    ∧ (0 : ℚ) ≤ 0.83 ∧ (0.83 : ℚ) < 1
    ∧ (process_position 0.85 0.91 rawScenarioC1).ltv_percentage = 0.83 * 100 :=
  ⟨rfl, by norm_num, by norm_num,
    c8_ltv_normalization 0.85 0.91 rawScenarioC1 0.83 rfl (by norm_num) (by norm_num)⟩

/-- A position at `ltvPercentage = 50` used to refute C9 under the
configuration `maxLTV = 0.1`, `minLTV = 0.9`. -/
def posC9 : Position :=
  { loan_id := "p", loan_coin := "USDT", collateral_coin := "BTC"
    total_debt := 1000, collateral_amount := 10, ltv_percentage := 50
    risk_level := "MEDIUM" }

/-- C9 counterexample: with `maxLTV = 0.1`, `minLTV = 0.9` the position
`posC9` satisfies `ltvPercentage < minLTV*100`, yet the analysis emits no
INCREASE recommendation for it — the REDUCE branch of the if/elif chain
takes precedence. -/
theorem c9_counterexample :
    posC9.ltv_percentage < 0.9 * 100
    ∧ rebalance_recommendations 0.1 0.9 [posC9]
        = [{ loan_id := "p", action := "REDUCE", amount := 100
             reason := "LTV too high", priority := "MEDIUM" }]
    ∧ (rebalance_recommendations 0.1 0.9 [posC9]).filter
        (fun r => r.action == "INCREASE") = [] := by
  have hstep : recommendFor 0.1 0.9 posC9
      = some { loan_id := "p", action := "REDUCE", amount := 100
               reason := "LTV too high", priority := "MEDIUM" } := by
    simp only [recommendFor]
    rw [if_pos (by norm_num [posC9])]
    norm_num [posC9, Recommendation.mk.injEq]
  refine ⟨by norm_num [posC9], ?_, ?_⟩
  · simp [rebalance_recommendations, hstep]
  · simp [rebalance_recommendations, hstep]

/-- C9 (amended): every position with `ltvPercentage > maxLTV*100` gets a
REDUCE recommendation of `totalDebt*0.1` (priority = its risk level);
every position NOT taken by the REDUCE branch with `ltvPercentage <
minLTV*100` gets an INCREASE recommendation of `collateralAmount*0.1`;
and each per-position recommendation appears in the analysis result. -/
theorem c9_recommendations (maxLtv minLtv : ℚ) (pos : Position) :
    (pos.ltv_percentage > maxLtv * 100 →
      recommendFor maxLtv minLtv pos = some
        { loan_id := pos.loan_id, action := "REDUCE"
          amount := pos.total_debt * 0.1, reason := "LTV too high"
          priority := pos.risk_level })
    ∧ (¬ pos.ltv_percentage > maxLtv * 100 → pos.ltv_percentage < minLtv * 100 →
      recommendFor maxLtv minLtv pos = some
        { loan_id := pos.loan_id, action := "INCREASE"
          amount := pos.collateral_amount * 0.1, reason := "Can leverage more"
          priority := "LOW" })
    ∧ (∀ l : List Position, pos ∈ l → ∀ r : Recommendation,
        recommendFor maxLtv minLtv pos = some r →
        r ∈ rebalance_recommendations maxLtv minLtv l) := by
  refine ⟨fun h => ?_, fun h1 h2 => ?_, fun l hl r hr => ?_⟩
  · simp only [recommendFor]
    rw [if_pos h]
  · simp only [recommendFor]
    rw [if_neg h1, if_pos h2]
  · exact List.mem_filterMap.mpr ⟨pos, hl, hr⟩

/-- Scenario position of C9: `ltvPercentage = 80`, `totalDebt = 1000`. -/
def posC9s : Position :=
  { loan_id := "L1", loan_coin := "USDT", collateral_coin := "BTC"
    total_debt := 1000, collateral_amount := 2, ltv_percentage := 80
    risk_level := "HIGH" }

/-- Witness for the amended C9: `maxLTV = 0.75`, `ltvPercentage = 80`,
`totalDebt = 1000` yields a REDUCE recommendation of amount 100. -/
theorem c9_recommendations_witness :
    posC9s.ltv_percentage > 0.75 * 100
    ∧ recommendFor 0.75 0.50 posC9s = some
        { loan_id := "L1", action := "REDUCE", amount := 100
          reason := "LTV too high", priority := "HIGH" }
    ∧ rebalance_recommendations 0.75 0.50 [posC9s]
        = [{ loan_id := "L1", action := "REDUCE", amount := 100
             reason := "LTV too high", priority := "HIGH" }] := by
  have hgt : posC9s.ltv_percentage > 0.75 * 100 := by norm_num [posC9s]
  have hstep : recommendFor 0.75 0.50 posC9s = some
      { loan_id := "L1", action := "REDUCE", amount := 100
        reason := "LTV too high", priority := "HIGH" } := by
    rw [(c9_recommendations 0.75 0.50 posC9s).1 hgt]
    norm_num [posC9s, Recommendation.mk.injEq]
  exact ⟨hgt, hstep, by simp [rebalance_recommendations, hstep]⟩

lemma pairOpp_zero_transfer {p1 p2 : Position} (h1 : p1.loan_amount = none)
    (h2 : 0 ≤ p2.collateral_amount) :
    ∀ opp : Opportunity, pairOpp p1 p2 = some opp →
      opp.transfer_amount = 0 ∧ opp.expected_profit = 0 := by
  intro opp hopp
  have hmin : min (p1.loan_amount.getD 0) p2.collateral_amount = 0 := by
    rw [h1]
    simpa using min_eq_left h2
  simp only [pairOpp, hmin] at hopp
  by_cases hc : |rateOf p2 - rateOf p1| > 0.1
  · rw [if_pos hc] at hopp
    cases hopp
    exact ⟨rfl, by simp⟩
  · rw [if_neg hc] at hopp
    exact absurd hopp (by simp)

lemma analyzeFrom_zero_transfer {l : List Position}
    (h : ∀ p ∈ l, p.loan_amount = none ∧ 0 ≤ p.collateral_amount) :
    ∀ opp ∈ analyzeFrom l, opp.transfer_amount = 0 ∧ opp.expected_profit = 0 := by
  induction l with
  | nil =>
    intro opp hopp
    simp [analyzeFrom] at hopp
  | cons a t ih =>
    intro opp hopp
    simp only [analyzeFrom, List.mem_append] at hopp
    rcases hopp with hmem | hmem
    · rcases List.mem_filterMap.mp hmem with ⟨q, hq, hpair⟩
      exact pairOpp_zero_transfer (h a (by simp)).1 (h q (by simp [hq])).2 opp hpair
    · exact ih (fun p hp => h p (by simp [hp])) opp hmem

/-- C10: over any store produced by the live-mode normalizer
`_process_positions` (whose records never carry the loan-amount key, and
whose collateral amounts are non-negative as the claim presupposes), every
emitted Opportunity has `transferAmount = 0` and `expectedProfit = 0`. -/
theorem c10_live_normalizer_zero_transfer (mc lq : ℚ) (raws : List RawPosition)
    (hc : ∀ raw ∈ raws, 0 ≤ raw.collateralAmount.getD 0) :
    ∀ opp ∈ analyze_arbitrage_opportunities (process_positions mc lq raws),
      opp.transfer_amount = 0 ∧ opp.expected_profit = 0 := by
  intro opp hopp
  unfold analyze_arbitrage_opportunities at hopp
  by_cases hl : (process_positions mc lq raws).length < 2
  · rw [if_pos hl] at hopp
    exact absurd hopp (by simp)
  · rw [if_neg hl] at hopp
    refine analyzeFrom_zero_transfer ?_ opp hopp
    intro p hp
    rcases List.mem_map.mp hp with ⟨raw, hraw, rfl⟩
    exact ⟨rfl, hc raw hraw⟩

/-- Raw witness record with effective rate 0. -/
def rawW10a : RawPosition := { loanId := some "r1", hourlyInterestRate := some 0 }

/-- Raw witness record with effective rate 0.2 and collateral 5. -/
def rawW10b : RawPosition :=
  { loanId := some "r2", hourlyInterestRate := some 0.2, collateralAmount := some 5 }

/-- The single opportunity the analyzer emits over the processed witness
records: spread 0.2, transfer `min 0 5 = 0`, profit 0. -/
def oppW10 : Opportunity :=
  { type := "RATE_ARBITRAGE", from_loan_id := "r1", to_loan_id := "r2"
    from_coin := "", to_coin := "", rate_spread := 0.2
    transfer_amount := 0, expected_profit := 0, confidence := "MEDIUM" }

/-- Witness for C10: a concrete raw pair on which the analyzer does emit
an opportunity, and that opportunity has zero transfer and profit. -/
theorem c10_live_normalizer_zero_transfer_witness :
    analyze_arbitrage_opportunities (process_positions 0.85 0.91 [rawW10a, rawW10b])
        = [oppW10]
    ∧ oppW10.transfer_amount = 0 ∧ oppW10.expected_profit = 0 := by
  have hr1 : rateOf (process_position 0.85 0.91 rawW10a) = 0 := by
    norm_num [rateOf, process_position, rawW10a]
  have hr2 : rateOf (process_position 0.85 0.91 rawW10b) = 0.2 := by
    norm_num [rateOf, process_position, rawW10b]
  have hpair : pairOpp (process_position 0.85 0.91 rawW10a)
      (process_position 0.85 0.91 rawW10b) = some oppW10 := by
    simp only [pairOpp, hr1, hr2]
    rw [if_pos (by rw [show (0.2 : ℚ) - 0 = 0.2 from by norm_num,
      abs_of_nonneg (by norm_num)]; norm_num)]
    rw [if_neg (by rw [show (0.2 : ℚ) - 0 = 0.2 from by norm_num,
      abs_of_nonneg (by norm_num)]; norm_num)]
    norm_num [process_position, rawW10a, rawW10b, oppW10, Opportunity.mk.injEq,
      min_def]
  have hlist : analyze_arbitrage_opportunities
      (process_positions 0.85 0.91 [rawW10a, rawW10b]) = [oppW10] := by
    simp [analyze_arbitrage_opportunities, process_positions, analyzeFrom, hpair]
  have hmem : oppW10 ∈ analyze_arbitrage_opportunities
      (process_positions 0.85 0.91 [rawW10a, rawW10b]) := by
    rw [hlist]
    simp
  have hq := c10_live_normalizer_zero_transfer 0.85 0.91 [rawW10a, rawW10b]
    (by
      intro raw hraw
      simp only [List.mem_cons, List.not_mem_nil, or_false] at hraw
      rcases hraw with rfl | rfl <;> norm_num [rawW10a, rawW10b])
    oppW10 hmem
  exact ⟨hlist, hq.1, hq.2⟩

end BotService

